import Mathlib

/-!
Verification development for the voice threat-detection engine
(`model/voice_model.py` and `model/text_model.py`).

The Python source is shallowly embedded: texts are lists of Unicode code
points, real-valued scores are rationals, every external pretrained model
(speech recognizer, transformer text classifier, emotion / toxicity /
sentiment pipelines, the random-forest classifier) and every librosa-level
numeric quantity is an oracle input supplied through an environment record,
and each Python `try/except` handler is an explicit match on an
`Except Unit` value.  The regex searches of the keyword gates are embedded
as executable scanners with Python `re` semantics for the exact patterns
appearing in the source (`\$\d+`, `₹\d+`, `rs\.?\s*\d+`, case-insensitive
substrings, and `\bword\b` / `\bw1\s*w2\b` word-boundary patterns).
-/

namespace ThreatDetector

/-! ### Character-code utilities (Python `str.lower`, `\d`, `\s`, `\w`) -/

/-- ASCII lower-casing of one code point, as done by `re.IGNORECASE` /
`str.lower()` on the ASCII patterns used in the source. -/
def lcN (n : Nat) : Nat := if 65 ≤ n ∧ n ≤ 90 then n + 32 else n

/-- Lower-case a whole text. -/
def lowerN (s : List Nat) : List Nat := s.map lcN

/-- Source `\d`: ASCII digit. -/
def isDigitN (n : Nat) : Bool := 48 ≤ n && n ≤ 57

/-- Source `\s`: ASCII whitespace (space, tab, newline, vertical tab, form feed,
carriage return). -/
def isSpaceN (n : Nat) : Bool := n == 32 || n == 9 || n == 10 || n == 11 || n == 12 || n == 13

/-- Source `\w`: word character `[A-Za-z0-9_]`. -/
def isWordN (n : Nat) : Bool :=
  isDigitN n || (97 ≤ n && n ≤ 122) || (65 ≤ n && n ≤ 90) || n == 95

/-- Code points of a string literal (used to write keyword lists and
concrete transcripts). -/
def codes (s : String) : List Nat := s.toList.map Char.toNat

/-! ### Substring and word-boundary search (Python `re.search` semantics) -/

/-- Does `pat` occur literally at the head of `s`? -/
def matchesHere : List Nat → List Nat → Bool
  | [], _ => true
  | _ :: _, [] => false
  | p :: ps, c :: cs => p == c && matchesHere ps cs

/-- Does `pat` occur literally anywhere in `s`?  (`re.search` of a plain
word pattern with no anchors.) -/
def containsSub (pat : List Nat) : List Nat → Bool
  | [] => matchesHere pat []
  | c :: t => matchesHere pat (c :: t) || containsSub pat t

/-- Consume the literal `pat` from the head of `s`, returning the rest. -/
def litAt : List Nat → List Nat → Option (List Nat)
  | [], s => some s
  | _ :: _, [] => none
  | c :: cs, d :: ds => if c == d then litAt cs ds else none

/-- Greedily consume `\s*`.  (The following pattern segment always starts
with a letter, so greedy consumption is complete: no backtracking can
succeed where the greedy match fails.) -/
def skipWs : List Nat → List Nat
  | [] => []
  | c :: t => if isSpaceN c then skipWs t else c :: t

/-- Is the head of `s` a word character?  (`false` at end of text, which is
a word boundary.) -/
def headIsWord : List Nat → Bool
  | [] => false
  | c :: _ => isWordN c

/-- Match the segments of a `\bw1\s*w2\s*...\b` pattern at the head of `s`:
each segment literally, `\s*` between consecutive segments, and a word
boundary after the last segment. -/
def segsMatchAt : List (List Nat) → List Nat → Bool
  | [], s => !headIsWord s
  | [seg], s =>
    match litAt seg s with
    | none => false
    | some r => !headIsWord r
  | seg :: rest, s =>
    match litAt seg s with
    | none => false
    | some r => segsMatchAt rest (skipWs r)

/-- Scan for a `\b...\b` segmented pattern anywhere in `s`; `prevW` records
whether the previous character was a word character (for the leading
boundary). -/
def segSearchAux (p : List (List Nat)) : Bool → List Nat → Bool
  | _, [] => false
  | prevW, c :: t => (!prevW && segsMatchAt p (c :: t)) || segSearchAux p (isWordN c) t

/-- Source `re.search` of a `\bw1\s*w2\s*...\b` pattern over the whole text. -/
def segSearch (p : List (List Nat)) (s : List Nat) : Bool := segSearchAux p false s

/-- Source `re.search(r"\bword\b", s)`. -/
def wordSearch (wrd s : List Nat) : Bool := segSearch [wrd] s

/-! ### Money-keyword patterns of `TextThreatClassifier.predict`
(`text_model.py` line 17):
`[r"\$\d+", r"₹\d+", r"rs\.?\s*\d+", r"transfer", r"payment", r"account", r"bank"]`
searched with `re.IGNORECASE`. -/

/-- Source `re.search(r"\$\d+", s)`: a `$` (code 36) immediately followed by a
digit. -/
def dollarMatch : List Nat → Bool
  | [] => false
  | 36 :: d :: t => isDigitN d || dollarMatch (d :: t)
  | _ :: t => dollarMatch t

/-- Source `re.search(r"₹\d+", s)`: a `₹` (code 8377) immediately followed by a
digit. -/
def rupeeMatch : List Nat → Bool
  | [] => false
  | 8377 :: d :: t => isDigitN d || rupeeMatch (d :: t)
  | _ :: t => rupeeMatch t

/-- After `rs`: `\s*` then a digit. -/
def spacesThenDigit : List Nat → Bool
  | [] => false
  | c :: t => if isSpaceN c then spacesThenDigit t else isDigitN c

/-- After `rs`: `\.?\s*\d`.  If a literal dot follows it must be consumed
(`\s*` and `\d` cannot match `.`, so the empty option for `\.?` cannot
rescue the match). -/
def rsAfter : List Nat → Bool
  | 46 :: t => spacesThenDigit t
  | l => spacesThenDigit l

/-- Source `re.search(r"rs\.?\s*\d+", s, re.IGNORECASE)` on lower-cased text. -/
def rsMatch : List Nat → Bool
  | [] => false
  | 114 :: 115 :: t => rsAfter t || rsMatch (115 :: t)
  | _ :: t => rsMatch t

/-- The money-keyword gate of `TextThreatClassifier.predict`: true iff any
of the seven patterns matches (the Python loop returns the same value for
every pattern, so the loop is a disjunction). -/
def moneyMatch (s : List Nat) : Bool :=
  dollarMatch s || rupeeMatch s || rsMatch (lowerN s) ||
  containsSub (codes "transfer") (lowerN s) ||
  containsSub (codes "payment") (lowerN s) ||
  containsSub (codes "account") (lowerN s) ||
  containsSub (codes "bank") (lowerN s)

/-! ### Threat-keyword patterns of `TextThreatClassifier.predict`
(`text_model.py` line 22). -/

/-- Source `threat_keywords` of `TextThreatClassifier.predict`. -/
def textModelThreatKeywords : List (List Nat) :=
  [codes "kill", codes "attack", codes "bomb", codes "shoot",
   codes "die", codes "murder", codes "threat", codes "harm"]

/-- True iff any `\bword\b` threat keyword of the text model matches
(case-insensitively). -/
def threatKeywordMatch (s : List Nat) : Bool :=
  textModelThreatKeywords.any (fun wrd => wordSearch wrd (lowerN s))

/-! ### `TextThreatClassifier.predict` -/

/-- Sigmoid scores of the seven labels of the `unbiased-toxic-roberta`
transformer, as consumed by the decision logic of
`TextThreatClassifier.predict` (lines 30-45). -/
structure ToxScores where
  toxic : ℚ
  severeToxic : ℚ
  obscene : ℚ
  threat : ℚ
  insult : ℚ
  identityHate : ℚ
  sexualExplicit : ℚ

/-- Decision logic applied to the transformer scores (lines 40-45):
threat / sexual_explicit / identity_hate above 0.4 give Threat; toxic /
obscene / severe_toxic / insult above 0.4 give Offensive; otherwise Safe. -/
def modelDecision (p : ToxScores) : String × String :=
  if p.threat > 2/5 ∨ p.sexualExplicit > 2/5 ∨ p.identityHate > 2/5 then ("Threat", "⚠")
  else if p.toxic > 2/5 ∨ p.obscene > 2/5 ∨ p.severeToxic > 2/5 ∨ p.insult > 2/5 then
    ("Offensive", "❗")
  else ("Safe", "✅")

/-- Source `TextThreatClassifier.predict`: money keywords first, then threat
keywords, then the transformer (an oracle that may also raise). -/
def textPredictE (oracle : List Nat → Except Unit ToxScores) (text : List Nat) :
    Except Unit (String × String) :=
  if moneyMatch text then .ok ("Offensive", "❗")
  else if threatKeywordMatch text then .ok ("Threat", "⚠")
  else
    match oracle text with
    | .ok p => .ok (modelDecision p)
    | .error u => .error u

/-! ### Keyword lists of `VoiceThreatClassifier` (`voice_model.py` lines
61-104), used by `_analyze_transcription`.  Each pattern is a list of
word segments separated by `\s*`, wrapped in `\b...\b`; duplicated source
entries (`poison`, `overdose`) are preserved because the source counts
every pattern of the list. -/

/-- Source `self.threat_keywords` (lines 61-71). -/
def voiceThreatKeywords : List (List (List Nat)) :=
  [[codes "kill"], [codes "attack"], [codes "bomb"], [codes "shoot"], [codes "die"],
   [codes "murder"], [codes "threat"], [codes "harm"], [codes "scam"], [codes "fraud"],
   [codes "steal"], [codes "blackmail"], [codes "kidnap"], [codes "explode"],
   [codes "weapon"], [codes "gun"], [codes "knife"], [codes "poison"], [codes "assault"],
   [codes "terror"], [codes "violence"], [codes "hostage"], [codes "explosive"],
   [codes "detonate"], [codes "assassinate"], [codes "execute"], [codes "maim"],
   [codes "torture"], [codes "terrorize"], [codes "intimidate"], [codes "beat"],
   [codes "stab"], [codes "strangle"], [codes "suffocate"], [codes "poison"],
   [codes "arson"], [codes "riot"], [codes "gang"], [codes "cartel"], [codes "mafia"]]

/-- Source `self.distress_indicators` (lines 74-84). -/
def distressIndicators : List (List (List Nat)) :=
  [[codes "help"], [codes "save"], [codes "danger"], [codes "emergency"], [codes "police"],
   [codes "ambulance"], [codes "hospital"], [codes "accident"], [codes "injury"],
   [codes "panic"], [codes "scared"], [codes "afraid"], [codes "terrified"], [codes "desperate"],
   [codes "trapped"], [codes "stuck"], [codes "choking"], [codes "bleeding"], [codes "unconscious"],
   [codes "heart", codes "attack"], [codes "stroke"], [codes "seizure"], [codes "overdose"],
   [codes "suicide"], [codes "self", codes "harm"], [codes "cutting"], [codes "hanging"],
   [codes "overdose"], [codes "poisoning"], [codes "drowning"], [codes "fire"],
   [codes "explosion"], [codes "crash"], [codes "wreck"], [codes "disaster"],
   [codes "catastrophe"], [codes "crisis"], [codes "breakdown"], [codes "mental", codes "health"]]

/-- Source `self.scam_indicators` (lines 87-104). -/
def scamIndicators : List (List (List Nat)) :=
  [[codes "prize"], [codes "winner"], [codes "lottery"], [codes "inheritance"],
   [codes "account"], [codes "password"], [codes "credit"], [codes "card"],
   [codes "social", codes "security"], [codes "tax"], [codes "irs"], [codes "government"],
   [codes "verify"], [codes "confirm"], [codes "update"], [codes "secure"],
   [codes "immediate"], [codes "urgent"], [codes "now"], [codes "quick"], [codes "wire"],
   [codes "transfer"], [codes "payment"], [codes "paypal"], [codes "venmo"],
   [codes "cash", codes "app"],
   [codes "gift", codes "card"], [codes "prepaid"], [codes "cryptocurrency"], [codes "bitcoin"],
   [codes "wallet"], [codes "private", codes "key"], [codes "seed", codes "phrase"],
   [codes "backup"],
   [codes "verify", codes "identity"], [codes "confirm", codes "details"],
   [codes "update", codes "information"],
   [codes "security", codes "breach"], [codes "unauthorized", codes "access"],
   [codes "suspicious", codes "activity"],
   [codes "nigerian", codes "prince"], [codes "royal", codes "family"],
   [codes "diamond"], [codes "gold"],
   [codes "oil"], [codes "contract"], [codes "deal"], [codes "offer"],
   [codes "limited", codes "time"],
   [codes "exclusive"], [codes "secret"], [codes "confidential"], [codes "private"],
   [codes "personal", codes "information"], [codes "bank", codes "account"],
   [codes "routing", codes "number"],
   [codes "ssn"], [codes "social", codes "security", codes "number"],
   [codes "driver", codes "license"],
   [codes "passport"], [codes "date", codes "of", codes "birth"],
   [codes "mother", codes "maiden", codes "name"]]

/-- Number of patterns of `pats` that match the (already lower-cased)
text, as `sum(1 for pattern in ... if re.search(pattern, text_lower))`. -/
def countMatches (pats : List (List (List Nat))) (s : List Nat) : Nat :=
  pats.countP (fun p => segSearch p s)

/-- Source `VoiceThreatClassifier._analyze_transcription` (lines 864-890): count
keyword matches per category on the lower-cased transcription, cap each
category (threat: 0.3 each up to 0.6; distress: 0.2 each up to 0.4; scam:
0.25 each up to 0.5), and cap the sum at 1. -/
def analyzeTranscription (t : List Nat) : ℚ :=
  if t.isEmpty then 0
  else
    let tl := lowerN t
    let threatCount := countMatches voiceThreatKeywords tl
    let distressCount := countMatches distressIndicators tl
    let scamCount := countMatches scamIndicators tl
    let s1 : ℚ := if threatCount > 0 then min ((threatCount : ℚ) * (3/10)) (3/5) else 0
    let s2 : ℚ := if distressCount > 0 then min ((distressCount : ℚ) * (1/5)) (2/5) else 0
    let s3 : ℚ := if scamCount > 0 then min ((scamCount : ℚ) * (1/4)) (1/2) else 0
    min (s1 + s2 + s3) 1

/-! ### Feature dictionaries (`extract_audio_features`,
`_get_default_features`, `_create_feature_vector`) -/

/-- The feature dictionary produced by `extract_audio_features` (both the
regular and the default path populate every key; the cepstral and
emotional entries are arrays whose lengths `_create_feature_vector` does
not trust, so they are arbitrary lists here). -/
structure Features where
  duration : ℚ
  rmsEnergy : ℚ
  zeroCrossingRate : ℚ
  spectralCentroid : ℚ
  spectralBandwidth : ℚ
  spectralRolloff : ℚ
  spectralContrast : ℚ
  mfccMean : List ℚ
  mfccStd : List ℚ
  pitchMean : ℚ
  pitchStd : ℚ
  tempo : ℚ
  harmonicRatio : ℚ
  percussiveRatio : ℚ
  voiceActivityRatio : ℚ
  loudness : ℚ
  loudnessStd : ℚ
  jitter : ℚ
  shimmer : ℚ
  emotionalFeatures : List ℚ

/-- Source `VoiceThreatClassifier._get_default_features` (lines 458-481). -/
def defaultFeatures : Features where
  duration := 0
  rmsEnergy := 0
  zeroCrossingRate := 0
  spectralCentroid := 0
  spectralBandwidth := 0
  spectralRolloff := 0
  spectralContrast := 0
  mfccMean := List.replicate 13 0
  mfccStd := List.replicate 13 0
  pitchMean := 0
  pitchStd := 0
  tempo := 120
  harmonicRatio := 1/2
  percussiveRatio := 1/2
  voiceActivityRatio := 1/2
  loudness := 0
  loudnessStd := 0
  jitter := 0
  shimmer := 0
  emotionalFeatures := List.replicate 13 0

/-- The `voice_analysis` mapping produced by
`analyze_voice_characteristics`; the dictionary is either fully populated
or empty (`{}` on failure), which the callers read through
`.get(key, 0)`. -/
structure VoiceChar where
  speakingRate : ℚ
  volumeVariation : ℚ
  pitchVariation : ℚ
  stressIndicators : ℚ
  aggressionIndicators : ℚ

/-- Source `voice_analysis.get(speaking_rate, 0)` where `none` is the empty
dictionary. -/
def vSpeakingRate : Option VoiceChar → ℚ
  | none => 0
  | some w => w.speakingRate

/-- Source `voice_analysis.get(volume_variation, 0)`. -/
def vVolumeVariation : Option VoiceChar → ℚ
  | none => 0
  | some w => w.volumeVariation

/-- Source `voice_analysis.get(pitch_variation, 0)`. -/
def vPitchVariation : Option VoiceChar → ℚ
  | none => 0
  | some w => w.pitchVariation

/-- Source `voice_analysis.get(stress_indicators, 0)`. -/
def vStressIndicators : Option VoiceChar → ℚ
  | none => 0
  | some w => w.stressIndicators

/-- Source `voice_analysis.get(aggression_indicators, 0)`. -/
def vAggressionIndicators : Option VoiceChar → ℚ
  | none => 0
  | some w => w.aggressionIndicators

/-- Source `np.pad(l, (0, max(0, 13 - len(l))))[:13]`: zero-pad to at least 13
entries, then crop to exactly 13. -/
def padCrop13 (l : List ℚ) : List ℚ :=
  (l ++ List.replicate (13 - l.length) 0).take 13

/-- Source `VoiceThreatClassifier._create_feature_vector` (lines 786-834): 14
scalar features, 13 cepstral means, 13 cepstral standard deviations, 2
pitch statistics, 13 emotional features, and the 5 voice-characteristic
values read with default 0. -/
def createFeatureVector (f : Features) (v : Option VoiceChar) : List ℚ :=
  [f.duration, f.rmsEnergy, f.zeroCrossingRate, f.spectralCentroid,
   f.spectralBandwidth, f.spectralRolloff, f.spectralContrast,
   f.harmonicRatio, f.percussiveRatio, f.voiceActivityRatio,
   f.loudness, f.loudnessStd, f.jitter, f.shimmer]
  ++ padCrop13 f.mfccMean
  ++ padCrop13 f.mfccStd
  ++ [f.pitchMean, f.pitchStd]
  ++ padCrop13 f.emotionalFeatures
  ++ [vSpeakingRate v, vVolumeVariation v, vPitchVariation v,
      vStressIndicators v, vAggressionIndicators v]

/-! ### Rule-based fallback and score-to-label mapping -/

/-- The score accumulated by `_rule_based_prediction` (lines 838-854):
stress > 0.7 contributes 0.3, aggression > 0.7 contributes 0.4, volume
variation > 0.5 contributes 0.2, pitch variation > 0.5 contributes 0.1.
(Real arithmetic; on these constants IEEE-754 evaluation of the source
agrees with exact arithmetic at every comparison used by the claims —
in particular `0.3 + 0.4` is exactly the double nearest `0.7`.) -/
def ruleScore (v : Option VoiceChar) : ℚ :=
  (if vStressIndicators v > 7/10 then (3 : ℚ)/10 else 0)
  + (if vAggressionIndicators v > 7/10 then (2 : ℚ)/5 else 0)
  + (if vVolumeVariation v > 1/2 then (1 : ℚ)/5 else 0)
  + (if vPitchVariation v > 1/2 then (1 : ℚ)/10 else 0)

/-- Source `VoiceThreatClassifier._rule_based_prediction` (lines 836-862); the
`features` dictionary is passed by the callers but never read.  Returns
the class (2 = Threat above 0.7, 1 = Offensive above 0.4, 0 = Safe) and
the score. -/
def ruleBasedPrediction (features : Features) (v : Option VoiceChar) : ℤ × ℚ :=
  let _ := features
  let score := ruleScore v
  if score > 7/10 then (2, score)
  else if score > 2/5 then (1, score)
  else (0, score)

/-- Source `VoiceThreatClassifier._get_prediction_from_score` (lines 892-899). -/
def getPredictionFromScore (score : ℚ) : ℤ :=
  if score > 7/10 then 2
  else if score > 2/5 then 1
  else 0

/-- Source `VoiceThreatClassifier._map_prediction_to_label` (lines 901-908). -/
def mapPredictionToLabel (prediction : ℤ) : String × String :=
  if prediction = 0 then ("Safe", "✅")
  else if prediction = 1 then ("Offensive", "❗")
  else ("Threat", "⚠")

/-! ### `analyze_voice_characteristics` and its helpers (lines 544-665)

The librosa-level statistics (onset count, energy / pitch means and
standard deviations, jitter, shimmer, spectral centroid / bandwidth,
tempo) are oracle inputs; the arithmetic, guards and clamping applied to
them come from the source. -/

/-- The librosa-level quantities consumed by the voice-characteristics
helpers for one audio chunk. -/
structure VoiceEnv where
  /-- Source `len(onset_times)` in `_analyze_speaking_rate`. -/
  onsetCount : Nat
  /-- Source `len(y)`: number of samples. -/
  yLen : Nat
  /-- sample rate (16000 in this pipeline). -/
  sr : Nat
  /-- Source `np.std(rms)` in `_analyze_volume_variation`. -/
  volumeStd : ℚ
  /-- Source `np.mean(rms)` in `_analyze_volume_variation`. -/
  volumeMean : ℚ
  /-- Source `len(pitch_values)` in `_analyze_pitch_variation`. -/
  pitchCount : Nat
  /-- Source `np.std(pitch_values)`. -/
  pitchStd : ℚ
  /-- Source `np.mean(pitch_values)`. -/
  pitchMean : ℚ
  /-- Source `_calculate_jitter(y, sr)`. -/
  jitter : ℚ
  /-- Source `_calculate_shimmer(y, sr)`. -/
  shimmer : ℚ
  /-- Source `np.mean(spectral_centroid)` in `_analyze_stress_indicators`. -/
  spectralCentroid : ℚ
  /-- Source `np.mean(rms)` in `_analyze_aggression_indicators`. -/
  loudness : ℚ
  /-- Source `np.mean(spectral_bandwidth)` in `_analyze_aggression_indicators`. -/
  spectralBandwidth : ℚ
  /-- Source `librosa.beat.beat_track` tempo in `_analyze_aggression_indicators`. -/
  tempo : ℚ

/-- Source `_analyze_speaking_rate` (lines 580-597): with at least 2 onsets,
`wpm = (len(onset_times) * 0.7 / (len(y)/sr)) * 60` — a words-per-minute
estimate. -/
def analyzeSpeakingRate (e : VoiceEnv) : ℚ :=
  if e.onsetCount < 2 then 0
  else ((e.onsetCount : ℚ) * (7/10) / ((e.yLen : ℚ) / (e.sr : ℚ))) * 60

/-- Source `_analyze_volume_variation` (lines 599-610): coefficient of variation
of the energy envelope, 0 when the mean is not positive. -/
def analyzeVolumeVariation (e : VoiceEnv) : ℚ :=
  if e.volumeMean > 0 then e.volumeStd / e.volumeMean else 0

/-- Source `_analyze_pitch_variation` (lines 612-628): coefficient of variation
of the tracked pitch values, 0 with fewer than 2 values or nonpositive
mean. -/
def analyzePitchVariation (e : VoiceEnv) : ℚ :=
  if e.pitchCount < 2 then 0
  else if e.pitchMean > 0 then e.pitchStd / e.pitchMean else 0

/-- Source `_analyze_stress_indicators` (lines 630-645):
`min((jitter*0.4 + shimmer*0.4 + spectral_centroid*0.2) / 1000, 1.0)`. -/
def analyzeStressIndicators (e : VoiceEnv) : ℚ :=
  min ((e.jitter * (2/5) + e.shimmer * (2/5) + e.spectralCentroid * (1/5)) / 1000) 1

/-- Source `_analyze_aggression_indicators` (lines 647-665):
`min((loudness*0.4 + spectral_bandwidth*0.3 + tempo*0.3) / 1000, 1.0)`. -/
def analyzeAggressionIndicators (e : VoiceEnv) : ℚ :=
  min ((e.loudness * (2/5) + e.spectralBandwidth * (3/10) + e.tempo * (3/10)) / 1000) 1

/-- Source `analyze_voice_characteristics` (lines 544-578): the five derived
metrics of one chunk. -/
def analyzeVoiceCharacteristics (e : VoiceEnv) : VoiceChar where
  speakingRate := analyzeSpeakingRate e
  volumeVariation := analyzeVolumeVariation e
  pitchVariation := analyzePitchVariation e
  stressIndicators := analyzeStressIndicators e
  aggressionIndicators := analyzeAggressionIndicators e

/-! ### The prediction environment and `VoiceThreatClassifier.predict`
(lines 667-784)

Every external call site of `predict` is an oracle: an `Except Unit`
value models a call that either returns or raises, and each Python
`try/except` handler of the source is the corresponding `match`. -/

/-- Truthiness of the `transcription` value (`None` or a string): Python
`if transcription:` is false for `None` and for the empty string. -/
def transTruthy : Option (List Nat) → Bool
  | none => false
  | some l => !l.isEmpty

/-- Oracle environment of one `predict` call. -/
structure PredictEnv where
  /-- Source `os.path.exists(audio_path)` (line 673). -/
  pathExists : Bool
  /-- the `transcription` argument (`none` = `None`, `some []` = `""`). -/
  transcriptionArg : Option (List Nat)
  /-- Source `self.speech_recognizer` is loaded. -/
  speechRecognizerAvailable : Bool
  /-- result of the `self.transcribe_audio(audio_path)` call (line 699). -/
  transcribeR : Except Unit (List Nat)
  /-- the transformer behind `TextThreatClassifier` (tokenizer + model). -/
  txtOracle : List Nat → Except Unit ToxScores
  /-- librosa pipeline behind `extract_audio_features` (its own handler
  substitutes `_get_default_features()` on error). -/
  featuresR : Except Unit Features
  /-- librosa pipeline behind `analyze_voice_characteristics` (its own
  handler substitutes the empty dictionary on error). -/
  voiceR : Except Unit VoiceChar
  /-- Source `self.rf_classifier` is available. -/
  rfAvailable : Bool
  /-- result of scaling + `rf.predict` + `np.max(rf.predict_proba(...))`
  (lines 726-728). -/
  rfR : Except Unit (ℤ × ℚ)
  /-- Source `self.emotion_classifier` is loaded. -/
  emotionAvailable : Bool
  /-- emotion scores dictionary from `analyze_emotion` (lines 739-742). -/
  emotionR : Except Unit (List (String × ℚ))
  /-- Source `self.toxicity_classifier` is loaded. -/
  toxicityAvailable : Bool
  /-- toxicity scores dictionary from the pipeline call (line 309). -/
  toxR : Except Unit (List (String × ℚ))
  /-- Source `self.sentiment_analyzer` is loaded. -/
  sentimentAvailable : Bool
  /-- sentiment scores dictionary from the pipeline call (line 328). -/
  sentR : Except Unit (List (String × ℚ))

/-- Source `dict.get(key, 0)` on a scores dictionary. -/
def dget (l : List (String × ℚ)) (k : String) : ℚ :=
  match l.find? (fun p => p.1 == k) with
  | some p => p.2
  | none => 0

/-- Source `max(values)` of a nonempty scores dictionary. -/
def maxVals (l : List (String × ℚ)) : ℚ :=
  match l with
  | [] => 0
  | p :: t => (t.map Prod.snd).foldl max p.2

/-- Python `text.strip()` truthiness: the text has a non-whitespace
character. -/
def stripNonempty (t : List Nat) : Bool := t.any (fun c => !isSpaceN c)

/-- Lines 697-702: use the provided transcription when truthy, otherwise
transcribe when a speech recognizer is available (`""` when that call
raises). -/
def effectiveTranscription (e : PredictEnv) : Option (List Nat) :=
  if !transTruthy e.transcriptionArg && e.speechRecognizerAvailable then
    some (match e.transcribeR with
          | .ok t => t
          | .error _ => [])
  else e.transcriptionArg

/-- Lines 704-711: the override-gate label from
`TextThreatClassifier.predict`, `("Safe", "✅")` when the transcription is
falsy or the classifier raises. -/
def textLabelEmoji (e : PredictEnv) : String × String :=
  let t := effectiveTranscription e
  if transTruthy t then
    match textPredictE e.txtOracle (t.getD []) with
    | .ok r => r
    | .error _ => ("Safe", "✅")
  else ("Safe", "✅")

/-- Source `extract_audio_features` as seen by `predict`: the internal handler
(lines 453-456) returns `_get_default_features()` on failure, so the
dictionary is always fully populated (and in particular truthy). -/
def extractAudioFeatures (e : PredictEnv) : Features :=
  match e.featuresR with
  | .ok f => f
  | .error _ => defaultFeatures

/-- Source `analyze_voice_characteristics` as seen by `predict`: the internal
handler (lines 576-578) returns the empty dictionary on failure. -/
def voiceAnalysisOf (e : PredictEnv) : Option VoiceChar :=
  match e.voiceR with
  | .ok v => some v
  | .error _ => none

/-- Lines 719-736 (full mode): the audio classifier block.  The features
dictionary is never empty, so the `if features:` branch is always taken;
with a random-forest classifier its (possibly raising) scoring is tried
first, falling back to `_rule_based_prediction`; without one the
rule-based fallback is used directly. -/
def fullAudioPrediction (e : PredictEnv) : ℤ × ℚ :=
  let features := extractAudioFeatures e
  let voice := voiceAnalysisOf e
  if e.rfAvailable then
    match e.rfR with
    | .ok pr => pr
    | .error _ => ruleBasedPrediction features voice
  else ruleBasedPrediction features voice

/-- The `audio_score` of full mode. -/
def fullAudioScore (e : PredictEnv) : ℚ := (fullAudioPrediction e).2

/-- Lines 737-745: `emotion_score`, the sum of the negative-emotion
scores `[angry, fear, disgust, sad]`, 0 when the classifier is
absent, raises, or returns an empty dictionary. -/
def emotionScoreOf (e : PredictEnv) : ℚ :=
  if e.emotionAvailable then
    match e.emotionR with
    | .ok scores =>
        if !scores.isEmpty then
          dget scores "angry" + dget scores "fear" + dget scores "disgust" + dget scores "sad"
        else 0
    | .error _ => 0
  else 0

/-- Source `analyze_text_toxicity` (lines 304-321): empty dictionary unless the
classifier is loaded and the stripped text is nonempty; its handler turns
a raising pipeline call into the empty dictionary. -/
def analyzeTextToxicity (e : PredictEnv) (text : List Nat) : List (String × ℚ) :=
  if e.toxicityAvailable && stripNonempty text then
    match e.toxR with
    | .ok s => s
    | .error _ => []
  else []

/-- Source `analyze_sentiment` (lines 323-340), analogous. -/
def analyzeSentiment (e : PredictEnv) (text : List Nat) : List (String × ℚ) :=
  if e.sentimentAvailable && stripNonempty text then
    match e.sentR with
    | .ok s => s
    | .error _ => []
  else []

/-- Lines 749-756: `toxicity_score`, the maximum toxicity value when the
classifier is loaded and its dictionary is truthy, else 0. -/
def toxicityScoreOf (e : PredictEnv) (t : Option (List Nat)) : ℚ :=
  if transTruthy t && e.toxicityAvailable then
    let s := analyzeTextToxicity e (t.getD [])
    if !s.isEmpty then maxVals s else 0
  else 0

/-- Lines 757-765: `sentiment_score = sentiment_scores.get(negative, 0)`
when the analyzer is loaded and its dictionary is truthy, else 0. -/
def sentimentScoreOf (e : PredictEnv) (t : Option (List Nat)) : ℚ :=
  if transTruthy t && e.sentimentAvailable then
    let s := analyzeSentiment e (t.getD [])
    if !s.isEmpty then dget s "negative" else 0
  else 0

/-- Lines 746-763: `text_score`, accumulated as
`keyword_score * 0.4 + toxicity_score * 0.3 + sentiment_score * 0.3`
(each term present exactly when the source adds it, since the toxicity
and sentiment terms are 0 whenever their `+=` does not run). -/
def textScoreOf (e : PredictEnv) (t : Option (List Nat)) : ℚ :=
  if transTruthy t then
    analyzeTranscription (t.getD []) * (2/5)
    + toxicityScoreOf e t * (3/10)
    + sentimentScoreOf e t * (3/10)
  else 0

/-- Fast mode (lines 676-694): classical features plus random forest (or
the rule-based fallback), label from `_map_prediction_to_label`. -/
def predictFast (e : PredictEnv) : String × String × ℚ :=
  let pr := fullAudioPrediction e
  let le := mapPredictionToLabel pr.1
  (le.1, le.2, pr.2)

/-- Full mode (lines 695-781): override gate first (Threat wins with
confidence 1.0, Offensive with 0.8), otherwise the weighted fusion
`audio*0.3 + text*0.3 + emotion*0.2 + toxicity*0.1 + sentiment*0.1`. -/
def predictFullMode (e : PredictEnv) : String × String × ℚ :=
  let t := effectiveTranscription e
  let tl := textLabelEmoji e
  let audioScore := fullAudioScore e
  let emotionScore := emotionScoreOf e
  let textScore := textScoreOf e t
  let toxicityScore := toxicityScoreOf e t
  let sentimentScore := sentimentScoreOf e t
  if tl.1 = "Threat" then ("Threat", tl.2, 1)
  else if tl.1 = "Offensive" then ("Offensive", tl.2, (4 : ℚ)/5)
  else
    let finalScore := audioScore * (3/10) + textScore * (3/10) + emotionScore * (1/5)
      + toxicityScore * (1/10) + sentimentScore * (1/10)
    let le := mapPredictionToLabel (getPredictionFromScore finalScore)
    (le.1, le.2, finalScore)

/-- Source `VoiceThreatClassifier.predict` (lines 667-784): missing file short
circuit, then fast or full mode.  Every failure point of the body is
locally handled, so the outer `except` (line 782, returning
`("Safe", "✅", 0.5)`) is never reached. -/
def predict (e : PredictEnv) (fastMode : Bool) : String × String × ℚ :=
  if !e.pathExists then ("Safe", "✅", 1/2)
  else if fastMode then predictFast e
  else predictFullMode e

/-! ### Real-time monitoring: alert queue and worker step
(lines 52-55, 1007-1103) -/

/-- One alert dictionary as built by `monitoring_worker`
(lines 1046-1053). -/
structure Alert where
  atype : String
  label : String
  confidence : ℚ
  timestamp : ℚ
  audioFile : String
  emoji : String

/-- Source `self.alert_queue.put(alert_data)`: `queue.Queue()` is created with no
`maxsize`, i.e. unbounded; `put` appends at the tail and `get` removes
from the head (FIFO). -/
def enqueueAlert (q : List Alert) (a : Alert) : List Alert := q ++ [a]

/-- One iteration of the threat check of `monitoring_worker`
(lines 1044-1060): when the label is Threat or Offensive and the
confidence exceeds 0.6, an alert is enqueued and the alert callback (if
provided) is invoked; otherwise nothing happens.  Returns the new queue
and whether the alert callback was invoked. -/
def monitorStep (label emoji : String) (confidence timestamp : ℚ) (audioFile : String)
    (q : List Alert) (hasCallback : Bool) : List Alert × Bool :=
  if (label = "Threat" ∨ label = "Offensive") ∧ confidence > 3/5 then
    (enqueueAlert q ⟨"voice_threat", label, confidence, timestamp, audioFile, emoji⟩,
     hasCallback)
  else (q, false)

/-- The drain loop of `get_alerts` (lines 1095-1103): pop from the head
while the queue is nonempty, appending to the `alerts` list. -/
def getAlertsLoop (alerts : List Alert) : List Alert → List Alert × List Alert
  | [] => (alerts, [])
  | a :: t => getAlertsLoop (alerts ++ [a]) t

/-- Source `VoiceThreatClassifier.get_alerts`: returns the drained alerts and
the state of the queue afterwards. -/
def getAlerts (q : List Alert) : List Alert × List Alert := getAlertsLoop [] q

/-! ### Concrete environments used by witnesses and counterexamples -/

/-- A `predict` environment in which every external model is unavailable
and every oracle call raises. -/
def envAllFail : PredictEnv where
  pathExists := true
  transcriptionArg := none
  speechRecognizerAvailable := false
  transcribeR := .error ()
  txtOracle := fun _ => .error ()
  featuresR := .error ()
  voiceR := .error ()
  rfAvailable := false
  rfR := .error ()
  emotionAvailable := false
  emotionR := .error ()
  toxicityAvailable := false
  toxR := .error ()
  sentimentAvailable := false
  sentR := .error ()

/-- Environment `envAllFail` with the transcription "i will kill you" supplied. -/
def envThreatCall : PredictEnv :=
  { envAllFail with transcriptionArg := some (codes "i will kill you") }

/-- Environment `envAllFail` with a transcription containing both a money keyword and
an explicit threat keyword. -/
def envMoneyCall : PredictEnv :=
  { envAllFail with transcriptionArg := some (codes "transfer $100 or i will kill you") }

/-- Scenario-B voice characteristics: stress and aggression indicators at
0.9, every other rule-based input at its default 0. -/
def vScenB : VoiceChar where
  speakingRate := 0
  volumeVariation := 0
  pitchVariation := 0
  stressIndicators := 9/10
  aggressionIndicators := 9/10

/-- Lesser voice characteristics for the monotonicity witness. -/
def vMonoLo : VoiceChar where
  speakingRate := 0
  volumeVariation := 0
  pitchVariation := 0
  stressIndicators := 1/2
  aggressionIndicators := 1/2

/-- Greater voice characteristics for the monotonicity witness. -/
def vMonoHi : VoiceChar where
  speakingRate := 0
  volumeVariation := 0
  pitchVariation := 0
  stressIndicators := 9/10
  aggressionIndicators := 9/10

/-- A 1-second chunk (16000 samples at 16 kHz) with 10 detected onsets
and every other librosa statistic 0. -/
def vEnvOnsets : VoiceEnv where
  onsetCount := 10
  yLen := 16000
  sr := 16000
  volumeStd := 0
  volumeMean := 0
  pitchCount := 0
  pitchStd := 0
  pitchMean := 0
  jitter := 0
  shimmer := 0
  spectralCentroid := 0
  loudness := 0
  spectralBandwidth := 0
  tempo := 0

/-- A concrete alert value. -/
def alert0 : Alert where
  atype := "voice_threat"
  label := "Threat"
  confidence := 1
  timestamp := 0
  audioFile := "chunk.wav"
  emoji := "⚠"

/-! ### Helper lemmas -/

/-- Source `_map_prediction_to_label` always yields one of the three labels. -/
theorem mapLabel_mem (p : ℤ) :
    (mapPredictionToLabel p).1 = "Safe" ∨ (mapPredictionToLabel p).1 = "Offensive" ∨
    (mapPredictionToLabel p).1 = "Threat" := by
  unfold mapPredictionToLabel
  split_ifs <;> simp

/-- Enqueueing a sequence of alerts appends them in order. -/
theorem foldl_enqueue (as q : List Alert) : as.foldl enqueueAlert q = q ++ as := by
  induction as generalizing q with
  | nil => simp
  | cons a t ih => simp [List.foldl, enqueueAlert, ih]

/-- The second component of the rule-based prediction is the rule score. -/
theorem ruleBasedPrediction_snd (f : Features) (v : Option VoiceChar) :
    (ruleBasedPrediction f v).2 = ruleScore v := by
  unfold ruleBasedPrediction
  dsimp only
  split_ifs <;> rfl

/-! ### Claim theorems -/

/-- C2 (counterexample): at stress = aggression = 0.9 and all other
rule-based inputs 0, `_rule_based_prediction` computes the score exactly
0.3 + 0.4 = 0.7, but the resulting label is not Threat: the Threat
threshold `score > 0.7` is strict, so the class is 1 (Offensive). -/
theorem scenarioB_not_threat_cex :
    (ruleBasedPrediction defaultFeatures (some vScenB)).2 = 7/10 ∧
    (mapPredictionToLabel (ruleBasedPrediction defaultFeatures (some vScenB)).1).1 ≠ "Threat" := by
  have hs : ruleScore (some vScenB) = 7/10 := by
    norm_num [ruleScore, vScenB, vStressIndicators, vAggressionIndicators,
      vVolumeVariation, vPitchVariation]
  have h2 : ruleBasedPrediction defaultFeatures (some vScenB) = (1, 7/10) := by
    unfold ruleBasedPrediction
    dsimp only
    rw [hs]
    norm_num
  rw [h2]
  refine ⟨rfl, ?_⟩
  simp [mapPredictionToLabel]

/-- C2 (amended): for a voice-characteristics input with
stress_indicators = 0.9 and aggression_indicators = 0.9 and every other
rule-based input at its default 0, the rule-based fallback computes an
audio score of exactly 0.3 + 0.4 = 0.7 and returns class 1, i.e. the
label Offensive — not Threat, because the Threat threshold is the strict
comparison score > 0.7. -/
theorem scenarioB_score_and_label :
    ruleBasedPrediction defaultFeatures (some vScenB) = (1, 7/10) ∧
    mapPredictionToLabel (ruleBasedPrediction defaultFeatures (some vScenB)).1
      = ("Offensive", "❗") := by
  have hs : ruleScore (some vScenB) = 7/10 := by
    norm_num [ruleScore, vScenB, vStressIndicators, vAggressionIndicators,
      vVolumeVariation, vPitchVariation]
  have h2 : ruleBasedPrediction defaultFeatures (some vScenB) = (1, 7/10) := by
    unfold ruleBasedPrediction
    dsimp only
    rw [hs]
    norm_num
  rw [h2]
  exact ⟨rfl, by simp [mapPredictionToLabel]⟩

/-- C3: for every feature dictionary (including the all-default one and
any dictionary whose cepstral or emotional arrays have the wrong length)
and every voice-analysis result (including the empty dictionary),
`_create_feature_vector` returns a vector of exactly 60 values. -/
theorem feature_vector_length (f : Features) (v : Option VoiceChar) :
    (createFeatureVector f v).length = 60 := by
  simp [createFeatureVector, padCrop13]
  omega

/-- C5 (counterexample): the speaking_rate value of the voice
characteristics mapping is a words-per-minute estimate, not a value in
[0, ~1]: a 1-second chunk with 10 detected onsets yields
speaking_rate = 420. -/
theorem voice_char_range_cex :
    (analyzeVoiceCharacteristics vEnvOnsets).speakingRate = 420 ∧
    ¬ (analyzeVoiceCharacteristics vEnvOnsets).speakingRate ≤ 1 := by
  have h : (analyzeVoiceCharacteristics vEnvOnsets).speakingRate = 420 := by
    show analyzeSpeakingRate vEnvOnsets = 420
    norm_num [analyzeSpeakingRate, vEnvOnsets]
  rw [h]
  norm_num

/-- C5 (amended): every value of the voice characteristics mapping is
nonnegative (given the nonnegativity of the underlying librosa
magnitudes), and stress_indicators and aggression_indicators are clamped
into [0, 1]; but speaking_rate, volume_variation and pitch_variation are
not bounded by 1 — speaking_rate in particular is a words-per-minute
estimate. -/
theorem voice_char_ranges (e : VoiceEnv)
    (h1 : 0 ≤ e.volumeStd) (h2 : 0 ≤ e.pitchStd)
    (h3 : 0 ≤ e.jitter) (h4 : 0 ≤ e.shimmer) (h5 : 0 ≤ e.spectralCentroid)
    (h6 : 0 ≤ e.loudness) (h7 : 0 ≤ e.spectralBandwidth) (h8 : 0 ≤ e.tempo) :
    0 ≤ (analyzeVoiceCharacteristics e).speakingRate ∧
    0 ≤ (analyzeVoiceCharacteristics e).volumeVariation ∧
    0 ≤ (analyzeVoiceCharacteristics e).pitchVariation ∧
    (0 ≤ (analyzeVoiceCharacteristics e).stressIndicators ∧
      (analyzeVoiceCharacteristics e).stressIndicators ≤ 1) ∧
    (0 ≤ (analyzeVoiceCharacteristics e).aggressionIndicators ∧
      (analyzeVoiceCharacteristics e).aggressionIndicators ≤ 1) := by
  refine ⟨?_, ?_, ?_, ⟨?_, ?_⟩, ⟨?_, ?_⟩⟩
  · show 0 ≤ analyzeSpeakingRate e
    unfold analyzeSpeakingRate
    split_ifs
    · exact le_refl 0
    · positivity
  · show 0 ≤ analyzeVolumeVariation e
    unfold analyzeVolumeVariation
    split_ifs with hm
    · exact div_nonneg h1 hm.le
    · exact le_refl 0
  · show 0 ≤ analyzePitchVariation e
    unfold analyzePitchVariation
    split_ifs with hc hm
    · exact le_refl 0
    · exact div_nonneg h2 hm.le
    · exact le_refl 0
  · show 0 ≤ analyzeStressIndicators e
    unfold analyzeStressIndicators
    refine le_min ?_ (by norm_num)
    positivity
  · show analyzeStressIndicators e ≤ 1
    unfold analyzeStressIndicators
    exact min_le_right _ _
  · show 0 ≤ analyzeAggressionIndicators e
    unfold analyzeAggressionIndicators
    refine le_min ?_ (by norm_num)
    positivity
  · show analyzeAggressionIndicators e ≤ 1
    unfold analyzeAggressionIndicators
    exact min_le_right _ _

/-- C5 (witness): the ranges theorem applied to the concrete environment
`vEnvOnsets`. -/
theorem voice_char_ranges_witness :
    0 ≤ (analyzeVoiceCharacteristics vEnvOnsets).speakingRate ∧
    0 ≤ (analyzeVoiceCharacteristics vEnvOnsets).volumeVariation ∧
    0 ≤ (analyzeVoiceCharacteristics vEnvOnsets).pitchVariation ∧
    (0 ≤ (analyzeVoiceCharacteristics vEnvOnsets).stressIndicators ∧
      (analyzeVoiceCharacteristics vEnvOnsets).stressIndicators ≤ 1) ∧
    (0 ≤ (analyzeVoiceCharacteristics vEnvOnsets).aggressionIndicators ∧
      (analyzeVoiceCharacteristics vEnvOnsets).aggressionIndicators ≤ 1) :=
  voice_char_ranges vEnvOnsets (by norm_num [vEnvOnsets]) (by norm_num [vEnvOnsets])
    (by norm_num [vEnvOnsets]) (by norm_num [vEnvOnsets]) (by norm_num [vEnvOnsets])
    (by norm_num [vEnvOnsets]) (by norm_num [vEnvOnsets]) (by norm_num [vEnvOnsets])

/-- C6 (counterexample): the alert queue is `queue.Queue()` with no
`maxsize`: no fixed capacity bounds the length of a queue reachable by
enqueues from empty, so the claimed bounded-capacity /
drop-oldest-on-overflow policy is false. -/
theorem alert_queue_unbounded_cex :
    ¬ ∃ C : ℕ, ∀ q : List Alert,
        (∃ as : List Alert, q = as.foldl enqueueAlert []) → q.length ≤ C := by
  rintro ⟨C, h⟩
  have hlen := h ((List.replicate (C + 1) alert0).foldl enqueueAlert [])
    ⟨List.replicate (C + 1) alert0, rfl⟩
  rw [foldl_enqueue] at hlen
  simp at hlen

/-- C6 (amended): the alert queue of the Monitor is an unbounded FIFO: a
sequence of enqueues appends the alerts in order, never dropping any, so
the queue length grows by exactly the number of enqueued alerts. -/
theorem alert_queue_fifo_unbounded (as q : List Alert) :
    as.foldl enqueueAlert q = q ++ as ∧
    (as.foldl enqueueAlert q).length = q.length + as.length := by
  refine ⟨foldl_enqueue as q, ?_⟩
  rw [foldl_enqueue]
  simp

/-- C7: with the alert sensitivity hard-coded at 0.6, a monitoring
iteration whose assessment has confidence 0.59 enqueues nothing and never
invokes the alert callback, whatever the label; one whose assessment is
Threat with confidence 0.61 always enqueues the alert and invokes the
callback exactly when one is provided. -/
theorem alert_threshold (label emoji : String) (ts : ℚ) (file : String)
    (q : List Alert) (hasCb : Bool) :
    monitorStep label emoji (59/100) ts file q hasCb = (q, false) ∧
    monitorStep "Threat" emoji (61/100) ts file q hasCb =
      (q ++ [⟨"voice_threat", "Threat", 61/100, ts, file, emoji⟩], hasCb) := by
  constructor
  · unfold monitorStep
    rw [if_neg]
    rintro ⟨-, hconf⟩
    norm_num at hconf
  · unfold monitorStep enqueueAlert
    rw [if_pos ⟨Or.inl rfl, by norm_num⟩]

/-- C8: the rule-based fallback audio score is monotone in the stress and
aggression indicators: holding volume_variation and pitch_variation
fixed, pointwise-greater stress and aggression indicators never decrease
the score. -/
theorem fallback_score_monotone (f g : Features) (v w : VoiceChar)
    (hvol : v.volumeVariation = w.volumeVariation)
    (hpit : v.pitchVariation = w.pitchVariation)
    (hs : v.stressIndicators ≤ w.stressIndicators)
    (ha : v.aggressionIndicators ≤ w.aggressionIndicators) :
    (ruleBasedPrediction f (some v)).2 ≤ (ruleBasedPrediction g (some w)).2 := by
  rw [ruleBasedPrediction_snd, ruleBasedPrediction_snd]
  simp only [ruleScore, vStressIndicators, vAggressionIndicators,
    vVolumeVariation, vPitchVariation]
  simp only [hvol, hpit]
  split_ifs <;> linarith

/-- C8 (witness): the monotonicity theorem applied at stress/aggression
0.5 versus 0.9 with the other characteristics equal. -/
theorem fallback_score_monotone_witness :
    (ruleBasedPrediction defaultFeatures (some vMonoLo)).2 ≤
      (ruleBasedPrediction defaultFeatures (some vMonoHi)).2 :=
  fallback_score_monotone defaultFeatures defaultFeatures vMonoLo vMonoHi rfl rfl
    (by norm_num [vMonoLo, vMonoHi]) (by norm_num [vMonoLo, vMonoHi])

/-- C9: `get_alerts` drains the queue completely: one call returns every
queued alert in enqueue order and leaves the queue empty, so a second
call with nothing enqueued in between returns the empty list. -/
theorem poll_alerts_drain (q : List Alert) :
    (getAlerts q).1 = q ∧ (getAlerts q).2 = [] ∧
    (getAlerts (getAlerts q).2).1 = [] := by
  have h : ∀ (l acc : List Alert), getAlertsLoop acc l = (acc ++ l, []) := by
    intro l
    induction l with
    | nil => intro acc; simp [getAlertsLoop]
    | cons a t ih => intro acc; simp [getAlertsLoop, ih]
  refine ⟨?_, ?_, ?_⟩ <;> simp [getAlerts, h]

/-- C1: override gate.  In full mode, on an existing audio file, whenever
`TextThreatClassifier.predict` on the (non-empty) effective transcription
returns Threat, `predict` returns the label Threat with confidence
exactly 1.0, and whenever it returns Offensive, `predict` returns
Offensive with confidence exactly 0.8 — for every environment, i.e.
regardless of the audio, emotion, toxicity and sentiment scores, the
weighted fusion being bypassed. -/
theorem override_gate (e : PredictEnv) (em : String)
    (hpath : e.pathExists = true)
    (ht : transTruthy (effectiveTranscription e) = true) :
    (textPredictE e.txtOracle ((effectiveTranscription e).getD []) = .ok ("Threat", em) →
      predict e false = ("Threat", em, 1)) ∧
    (textPredictE e.txtOracle ((effectiveTranscription e).getD []) = .ok ("Offensive", em) →
      predict e false = ("Offensive", em, (4 : ℚ)/5)) := by
  constructor <;> intro h <;>
    simp [predict, hpath, predictFullMode, textLabelEmoji, ht, h]

/-- C1 (witness): with the transcription "i will kill you" (on which the
keyword gate of the transcript classifier returns Threat) and every other
model failing, `predict` returns Threat with confidence 1. -/
theorem override_gate_witness :
    predict envThreatCall false = ("Threat", "⚠", 1) :=
  (override_gate envThreatCall "⚠" rfl (by decide)).1 (by rfl)

/-- C4: a one-shot `predict` call is total over every oracle environment
(existing or missing file, any transcription, either mode) and always
returns one of the three labels; each unavailable or failing signal
source contributes 0 (emotion, toxicity, sentiment, and the audio block
falling back to the zero rule score on a failed voice analysis without a
random forest), and with every source failing the full-mode result is a
Safe label with fused score 0. -/
theorem predict_total (e : PredictEnv) (fm : Bool) (t : Option (List Nat)) :
    ((predict e fm).1 = "Safe" ∨ (predict e fm).1 = "Offensive" ∨
      (predict e fm).1 = "Threat") ∧
    emotionScoreOf { e with emotionAvailable := false } = 0 ∧
    emotionScoreOf { e with emotionR := .error () } = 0 ∧
    toxicityScoreOf { e with toxicityAvailable := false } t = 0 ∧
    sentimentScoreOf { e with sentimentAvailable := false } t = 0 ∧
    fullAudioScore { e with rfAvailable := false, voiceR := .error () } = 0 ∧
    predict envAllFail false = ("Safe", "✅", 0) := by
  refine ⟨?_, ?_, ?_, ?_, ?_, ?_, ?_⟩
  · unfold predict
    split_ifs
    · simp
    · exact mapLabel_mem _
    · unfold predictFullMode
      dsimp only
      split_ifs <;> simp [mapLabel_mem]
  · simp [emotionScoreOf]
  · simp [emotionScoreOf]
  · simp [toxicityScoreOf]
  · simp [sentimentScoreOf]
  · simp [fullAudioScore, fullAudioPrediction, voiceAnalysisOf,
      ruleBasedPrediction_snd, ruleScore, vStressIndicators,
      vAggressionIndicators, vVolumeVariation, vPitchVariation]
    norm_num
  · simp [predict, envAllFail, predictFullMode, textLabelEmoji,
      effectiveTranscription, transTruthy,
      fullAudioScore, fullAudioPrediction, voiceAnalysisOf, extractAudioFeatures,
      ruleBasedPrediction_snd, ruleScore, vStressIndicators, vAggressionIndicators,
      vVolumeVariation, vPitchVariation, emotionScoreOf, textScoreOf,
      toxicityScoreOf, sentimentScoreOf, getPredictionFromScore, mapPredictionToLabel]
    norm_num

/-- C10: money-keyword precedence.  For every environment whose effective
transcription is non-empty and matches one of the money/financial
patterns (`\$\d+`, `₹\d+`, `rs\.?\s*\d+`, transfer, payment, account,
bank, case-insensitively), the transcript classifier returns Offensive
without consulting the threat keywords or the transformer, and the
full-mode prediction on an existing file is Offensive with confidence
0.8 — even when the transcription also contains explicit threat words. -/
theorem money_precedence (e : PredictEnv)
    (hpath : e.pathExists = true)
    (ht : transTruthy (effectiveTranscription e) = true)
    (hm : moneyMatch ((effectiveTranscription e).getD []) = true) :
    textPredictE e.txtOracle ((effectiveTranscription e).getD []) = .ok ("Offensive", "❗") ∧
    predict e false = ("Offensive", "❗", (4 : ℚ)/5) := by
  have htp : textPredictE e.txtOracle ((effectiveTranscription e).getD [])
      = .ok ("Offensive", "❗") := by
    unfold textPredictE
    rw [if_pos hm]
  exact ⟨htp, by simp [predict, hpath, predictFullMode, textLabelEmoji, ht, htp]⟩

/-- C10 (witness): the transcription "transfer $100 or i will kill you"
contains an explicit threat keyword, yet the money gate fires first and
the full-mode prediction is Offensive with confidence 0.8. -/
theorem money_precedence_witness :
    threatKeywordMatch (codes "transfer $100 or i will kill you") = true ∧
    predict envMoneyCall false = ("Offensive", "❗", (4 : ℚ)/5) :=
  ⟨by decide, (money_precedence envMoneyCall rfl (by decide) (by decide)).2⟩

end ThreatDetector
